import Mathlib

/-!
Verification of `examples/nlp/token_classification/scripts/token_classification_evaluate.py`.

The script is a linear command-line driver: it validates configuration fields,
resolves a checkpoint source, and delegates evaluation and inference to
framework calls.  We embed it as a pure function from a configuration and an
environment (filesystem answers and framework responses) to a trace of the
delegated calls it makes together with either success or the error it raises.
Every framework call the script performs is recorded as an `Event`, in order;
every `raise ValueError(...)` site is a distinct `ScriptError` constructor
whose message is reproduced by `errMessage`.
-/

namespace TokenClassificationEvaluate

/-- The `test_ds` section of the model config: the two configured file names
used by `evaluate_from_file` (config keys `test_ds.text_file` and
`test_ds.labels_file`). -/
structure TestDs where
  text_file : String
  labels_file : String
deriving DecidableEq, Repr

/-- The `cfg.model` section.  `test_ds` is `none` when the attribute is absent
(`hasattr(cfg.model, 'test_ds')` is false).  `dataset_data_dir` models
`cfg.model.dataset.get('data_dir', None)`: `none` when the key is absent. -/
structure ModelCfg where
  test_ds : Option TestDs
  dataset_data_dir : Option String
deriving DecidableEq, Repr

/-- The `cfg.trainer` section: the fields the script reads. -/
structure TrainerCfg where
  gpus : Int
  precision : String
  amp_level : String
deriving DecidableEq, Repr

/-- The whole configuration object handed to `main` by the config runner.
`pretrained_model` is `none` when absent/None in the config. -/
structure Config where
  trainer : TrainerCfg
  model : ModelCfg
  pretrained_model : Option String
deriving DecidableEq, Repr

/-- Python truthiness of the `pretrained_model` / `data_dir` values: an absent
value (`None`) and the empty string are falsy, every other string is truthy. -/
def pyTruthy : Option String → Bool
  | none => false
  | some s => s ≠ ""

/-- The environment the script runs against: filesystem existence answers,
the framework's list of available pretrained model names, the rendering of
`list_available_models()` used in the error message, the experiment directory
returned by `exp_manager`, the result of `model.prepare_test(trainer)`, and
the dataset configuration restored from the checkpoint. -/
structure Env where
  pathExists : String → Bool
  availableModelNames : List String
  listAvailableModels : String
  expDir : String
  prepareTest : Bool
  restoredUseCache : Bool
  restoredDataDir : Option String

/-- The in-memory state of the loaded model's dataset configuration
(`model._cfg.dataset`): the fields the script mutates. -/
structure ModelState where
  data_dir : Option String
  use_cache : Bool
deriving DecidableEq, Repr

/-- One delegated call made by the script, in program order.  `trainerTest`
and `evaluateFromFile` record the model's dataset state at the moment of the
call. -/
inductive Event where
  | mkTrainer (gpus : Int) (precision : String) (amp_level : String)
  | expManagerCall
  | restoreFrom (path : String)
  | fromPretrained (name : String)
  | updateDataDir (d : String)
  | setUseCacheFalse
  | prepareTestCall
  | setupTestData
  | trainerTest (st : ModelState)
  | evaluateFromFile (st : ModelState) (text_file : String)
      (labels_file : String) (output_dir : String)
      (add_confusion_matrix : Bool) (normalize_confusion_matrix : Bool)
  | addPredictions (queries : List String) (output_file : String)
deriving DecidableEq, Repr

/-- Each `raise ValueError(...)` site of the script, in source order. -/
inductive ScriptError where
  | missingTestDsFirst
  | missingPretrainedModel
  | unknownPretrainedModel (available : String)
  | missingDataDir
  | dataDirNotFound (d : String)
  | missingTestDsSecond
  | terminatingEvaluation
deriving DecidableEq, Repr

/-- The message string of each raise site, as written in the Python source. -/
def errMessage : ScriptError → String
  | .missingTestDsFirst =>
      "model.test_ds was not found in the config, skipping evaluation"
  | .missingPretrainedModel =>
      "To run evaluation and inference script a pre-trained model or .nemo file must be provided." ++
      "For example: \"pretrained_model\"=\"NERModel\" or \"pretrained_model\"=\"my_ner_model.nemo\""
  | .unknownPretrainedModel available =>
      "Provide path to the pre-trained checkpoint or choose from " ++ available
  | .missingDataDir =>
      "Specify a valid dataset directory that contains test_ds.text_file and test_ds.labels_file " ++
      "            with \"model.dataset.data_dir\" argument"
  | .dataDirNotFound d => d ++ " is not found at"
  | .missingTestDsSecond =>
      "model.test_ds was not found in the config, skipping evaluation"
  | .terminatingEvaluation => "Terminating evaluation"

/-- `os.path.join` for two components (POSIX): an absolute second component
replaces the first, otherwise they are joined with a separator unless the
first already ends in one or is empty. -/
def os_path_join (a b : String) : String :=
  if b.data.head? = some '/' then b
  else if a = "" then b
  else if a.data.getLast? = some '/' then a ++ b
  else a ++ "/" ++ b

/-- The hardcoded inference queries of the script. -/
def queries : List String :=
  ["we bought four shirts from the nvidia gear store in santa clara.",
   "Nvidia is a company."]

/-- The tail of `main` from `data_dir = cfg.model.dataset.get('data_dir', None)`
onward, given the trace accumulated so far. -/
def mainAfterLoad (cfg : Config) (env : Env) (tr : List Event) :
    List Event × Except ScriptError Unit :=
  let dataDirOpt := cfg.model.dataset_data_dir
  if ¬ pyTruthy dataDirOpt then
    (tr, .error .missingDataDir)
  else
    let data_dir := dataDirOpt.getD ""
    if ¬ env.pathExists data_dir then
      (tr, .error (.dataDirNotFound data_dir))
    else
      let st0 : ModelState :=
        { data_dir := env.restoredDataDir, use_cache := env.restoredUseCache }
      let st1 := { st0 with data_dir := some data_dir }
      let st := { st1 with use_cache := false }
      let tr := tr ++ [.updateDataDir data_dir, .setUseCacheFalse]
      match cfg.model.test_ds with
      | none => (tr, .error .missingTestDsSecond)
      | some tds =>
        let tr := tr ++ [.prepareTestCall]
        if env.prepareTest then
          let tr := tr ++ [.setupTestData, .trainerTest st]
          let tr := tr ++
            [.evaluateFromFile st (os_path_join data_dir tds.text_file)
              (os_path_join data_dir tds.labels_file) env.expDir true true]
          let tr := tr ++ [.addPredictions queries "predictions.txt"]
          (tr, .ok ())
        else
          (tr, .error .terminatingEvaluation)

/-- The embedding of `main`: given the configuration and the environment it
returns the ordered trace of delegated calls and either success or the raised
error. -/
def main (cfg : Config) (env : Env) : List Event × Except ScriptError Unit :=
  match cfg.model.test_ds with
  | none => ([], .error .missingTestDsFirst)
  | some _ =>
    let gpu : Int := if cfg.trainer.gpus ≠ 0 then 1 else 0
    let tr : List Event :=
      [.mkTrainer gpu cfg.trainer.precision cfg.trainer.amp_level,
       .expManagerCall]
    if ¬ pyTruthy cfg.pretrained_model then
      (tr, .error .missingPretrainedModel)
    else
      let pm := cfg.pretrained_model.getD ""
      if env.pathExists pm then
        mainAfterLoad cfg env (tr ++ [.restoreFrom pm])
      else if pm ∈ env.availableModelNames then
        mainAfterLoad cfg env (tr ++ [.fromPretrained pm])
      else
        (tr, .error (.unknownPretrainedModel env.listAvailableModels))

/-- Whether an event is a model-loading call (`restore_from` or
`from_pretrained`). -/
@[simp] def isLoadEvent : Event → Bool
  | .restoreFrom _ => true
  | .fromPretrained _ => true
  | _ => false

/-- Whether an event is an evaluation call (`trainer.test` or
`evaluate_from_file`). -/
@[simp] def isEvalEvent : Event → Bool
  | .trainerTest _ => true
  | .evaluateFromFile _ _ _ _ _ _ => true
  | _ => false

/-- Whether an event is an evaluation or inference call (`trainer.test`,
`evaluate_from_file` or `add_predictions`). -/
@[simp] def isEvalOrInferEvent : Event → Bool
  | .trainerTest _ => true
  | .evaluateFromFile _ _ _ _ _ _ => true
  | .addPredictions _ _ => true
  | _ => false

/-- The events that the post-loading tail of the script can emit: everything
after the two model-loading calls. -/
@[simp] def addedByAfterLoad : Event → Bool
  | .updateDataDir _ => true
  | .setUseCacheFalse => true
  | .prepareTestCall => true
  | .setupTestData => true
  | .trainerTest _ => true
  | .evaluateFromFile _ _ _ _ _ _ => true
  | .addPredictions _ _ => true
  | _ => false

/-- A concrete test-set section used for concrete runs. -/
def tdsA : TestDs := { text_file := "text_dev.txt", labels_file := "labels_dev.txt" }

/-- A concrete fully valid configuration (with a multi-GPU trainer setting). -/
def cfgValid : Config :=
  { trainer := { gpus := 2, precision := "16", amp_level := "O1" },
    model := { test_ds := some tdsA, dataset_data_dir := some "/data" },
    pretrained_model := some "ner_model.nemo" }

/-- A concrete environment in which every path exists, the pretrained name is
known, and evaluation setup succeeds. -/
def envAll : Env :=
  { pathExists := fun _ => true,
    availableModelNames := ["NERModel", "ner_model.nemo"],
    listAvailableModels := "[NERModel]",
    expDir := "/exp/run0",
    prepareTest := true,
    restoredUseCache := true,
    restoredDataDir := some "/ckpt_data" }

lemma mainAfterLoad_mem (cfg : Config) (env : Env) (tr : List Event) :
    ∀ e ∈ (mainAfterLoad cfg env tr).1, e ∈ tr ∨ addedByAfterLoad e = true := by
  intro e he
  by_cases h1 : pyTruthy cfg.model.dataset_data_dir <;>
  by_cases h2 : env.pathExists (cfg.model.dataset_data_dir.getD "") <;>
  rcases htds : cfg.model.test_ds with _ | tds <;>
  by_cases h3 : env.prepareTest <;>
  simp only [mainAfterLoad, h1, h2, htds, h3, not_true_eq_false,
    not_false_eq_true, Bool.not_true, Bool.not_false, Bool.false_eq_true,
    ite_true, ite_false, if_true, if_false, List.append_assoc,
    List.mem_append, List.mem_cons, List.not_mem_nil, or_false,
    List.mem_singleton] at he <;>
  aesop

/-- The two events every run with a present `test_ds` emits first: trainer
construction (with the clamped GPU count) and the `exp_manager` call. -/
def trPrefix (cfg : Config) : List Event :=
  [.mkTrainer (if cfg.trainer.gpus ≠ 0 then 1 else 0)
     cfg.trainer.precision cfg.trainer.amp_level,
   .expManagerCall]

lemma main_eq_noTestDs (cfg : Config) (env : Env)
    (h : cfg.model.test_ds = none) :
    main cfg env = ([], .error .missingTestDsFirst) := by
  simp [main, h]

lemma main_eq_noPretrained (cfg : Config) (env : Env) (tds : TestDs)
    (htds : cfg.model.test_ds = some tds)
    (hp : pyTruthy cfg.pretrained_model = false) :
    main cfg env = (trPrefix cfg, .error .missingPretrainedModel) := by
  simp [main, htds, hp, trPrefix]

lemma main_eq_restore (cfg : Config) (env : Env) (tds : TestDs)
    (htds : cfg.model.test_ds = some tds)
    (hp : pyTruthy cfg.pretrained_model = true)
    (hex : env.pathExists (cfg.pretrained_model.getD "") = true) :
    main cfg env =
      mainAfterLoad cfg env
        (trPrefix cfg ++ [.restoreFrom (cfg.pretrained_model.getD "")]) := by
  simp [main, htds, hp, hex, trPrefix]

lemma main_eq_fromPretrained (cfg : Config) (env : Env) (tds : TestDs)
    (htds : cfg.model.test_ds = some tds)
    (hp : pyTruthy cfg.pretrained_model = true)
    (hex : env.pathExists (cfg.pretrained_model.getD "") = false)
    (hmem : cfg.pretrained_model.getD "" ∈ env.availableModelNames) :
    main cfg env =
      mainAfterLoad cfg env
        (trPrefix cfg ++ [.fromPretrained (cfg.pretrained_model.getD "")]) := by
  simp [main, htds, hp, hex, hmem, trPrefix]

lemma main_eq_unknown (cfg : Config) (env : Env) (tds : TestDs)
    (htds : cfg.model.test_ds = some tds)
    (hp : pyTruthy cfg.pretrained_model = true)
    (hex : env.pathExists (cfg.pretrained_model.getD "") = false)
    (hmem : cfg.pretrained_model.getD "" ∉ env.availableModelNames) :
    main cfg env =
      (trPrefix cfg, .error (.unknownPretrainedModel env.listAvailableModels)) := by
  simp [main, htds, hp, hex, hmem, trPrefix]

lemma afterLoad_eq_noDataDir (cfg : Config) (env : Env) (tr : List Event)
    (h : pyTruthy cfg.model.dataset_data_dir = false) :
    mainAfterLoad cfg env tr = (tr, .error .missingDataDir) := by
  simp [mainAfterLoad, h]

lemma afterLoad_eq_dirNotFound (cfg : Config) (env : Env) (tr : List Event)
    (h1 : pyTruthy cfg.model.dataset_data_dir = true)
    (h2 : env.pathExists (cfg.model.dataset_data_dir.getD "") = false) :
    mainAfterLoad cfg env tr =
      (tr, .error (.dataDirNotFound (cfg.model.dataset_data_dir.getD ""))) := by
  simp [mainAfterLoad, h1, h2]

lemma afterLoad_eq_noTestDs (cfg : Config) (env : Env) (tr : List Event)
    (htds : cfg.model.test_ds = none)
    (h1 : pyTruthy cfg.model.dataset_data_dir = true)
    (h2 : env.pathExists (cfg.model.dataset_data_dir.getD "") = true) :
    mainAfterLoad cfg env tr =
      (tr ++ [.updateDataDir (cfg.model.dataset_data_dir.getD ""),
              .setUseCacheFalse],
       .error .missingTestDsSecond) := by
  simp [mainAfterLoad, htds, h1, h2]

lemma afterLoad_eq_terminating (cfg : Config) (env : Env) (tr : List Event)
    (tds : TestDs) (htds : cfg.model.test_ds = some tds)
    (h1 : pyTruthy cfg.model.dataset_data_dir = true)
    (h2 : env.pathExists (cfg.model.dataset_data_dir.getD "") = true)
    (h3 : env.prepareTest = false) :
    mainAfterLoad cfg env tr =
      (tr ++ [.updateDataDir (cfg.model.dataset_data_dir.getD ""),
              .setUseCacheFalse, .prepareTestCall],
       .error .terminatingEvaluation) := by
  simp [mainAfterLoad, htds, h1, h2, h3]

lemma afterLoad_eq_success (cfg : Config) (env : Env) (tr : List Event)
    (tds : TestDs) (htds : cfg.model.test_ds = some tds)
    (h1 : pyTruthy cfg.model.dataset_data_dir = true)
    (h2 : env.pathExists (cfg.model.dataset_data_dir.getD "") = true)
    (h3 : env.prepareTest = true) :
    mainAfterLoad cfg env tr =
      (tr ++ [.updateDataDir (cfg.model.dataset_data_dir.getD ""),
              .setUseCacheFalse, .prepareTestCall, .setupTestData,
              .trainerTest
                { data_dir := some (cfg.model.dataset_data_dir.getD ""),
                  use_cache := false },
              .evaluateFromFile
                { data_dir := some (cfg.model.dataset_data_dir.getD ""),
                  use_cache := false }
                (os_path_join (cfg.model.dataset_data_dir.getD "") tds.text_file)
                (os_path_join (cfg.model.dataset_data_dir.getD "") tds.labels_file)
                env.expDir true true,
              .addPredictions queries "predictions.txt"],
       .ok ()) := by
  simp [mainAfterLoad, htds, h1, h2, h3]

/-- The valid configuration with the `test_ds` section removed. -/
def cfgNoTestDs : Config :=
  { cfgValid with model := { test_ds := none, dataset_data_dir := some "/data" } }

/-- The valid configuration with `pretrained_model` absent. -/
def cfgNoPretrained : Config := { cfgValid with pretrained_model := none }

/-- The valid configuration with `model.dataset.data_dir` absent. -/
def cfgNoDataDir : Config :=
  { cfgValid with model := { test_ds := some tdsA, dataset_data_dir := none } }

/-- The environment `envAll` except that no filesystem path exists. -/
def envNone : Env := { envAll with pathExists := fun _ => false }

/-- The environment `envAll` except that `prepare_test` fails. -/
def envNoPrep : Env := { envAll with prepareTest := false }

lemma pyTruthy_eq_some (o : Option String) (h : pyTruthy o = true) :
    o = some (o.getD "") := by
  cases o with
  | none => simp [pyTruthy] at h
  | some s => rfl

lemma mainAfterLoad_prefix (cfg : Config) (env : Env) (tr : List Event) :
    ∃ s, (mainAfterLoad cfg env tr).1 = tr ++ s := by
  by_cases h1 : pyTruthy cfg.model.dataset_data_dir <;>
  by_cases h2 : env.pathExists (cfg.model.dataset_data_dir.getD "") <;>
  rcases htds : cfg.model.test_ds with _ | tds <;>
  by_cases h3 : env.prepareTest <;>
  simp only [mainAfterLoad, h1, h2, htds, h3, not_true_eq_false,
    not_false_eq_true, Bool.not_true, Bool.not_false, Bool.false_eq_true,
    ite_true, ite_false, if_true, if_false, List.append_assoc] <;>
  first
    | exact ⟨_, rfl⟩
    | exact ⟨[], (List.append_nil tr).symm⟩

/-- The valid configuration with a `pretrained_model` that is neither an
existing path (in `envNone`) nor an available model name. -/
def cfgUnknown : Config := { cfgValid with pretrained_model := some "BogusModel" }

/-- C1, counterexample: the claim "the number of GPUs handed to the trainer
equals cfg.trainer.gpus" fails at a concrete configuration with
`trainer.gpus = 2`: the trainer is constructed with 1 GPU, and no trainer
construction with 2 GPUs occurs in the run. -/
theorem C1_counterexample :
    cfgValid.trainer.gpus = 2 ∧
    Event.mkTrainer 1 "16" "O1" ∈ (main cfgValid envAll).1 ∧
    Event.mkTrainer 2 "16" "O1" ∉ (main cfgValid envAll).1 := by
  refine ⟨rfl, ?_, ?_⟩ <;> decide

/-- C1, amended: the script clamps the configured GPU count instead of
passing it through: every trainer construction in any run is handed 1 GPU
when `cfg.trainer.gpus ≠ 0` and 0 GPUs when it is 0, so the count handed to
the trainer equals `cfg.trainer.gpus` only when the latter is 0 or 1. -/
theorem C1_gpus_clamped (cfg : Config) (env : Env) (g : Int) (p a : String)
    (h : Event.mkTrainer g p a ∈ (main cfg env).1) :
    g = if cfg.trainer.gpus ≠ 0 then 1 else 0 := by
  rcases htds : cfg.model.test_ds with _ | tds
  · rw [main_eq_noTestDs cfg env htds] at h
    simp at h
  · cases hp : pyTruthy cfg.pretrained_model with
    | false =>
      rw [main_eq_noPretrained cfg env tds htds hp] at h
      simp [trPrefix] at h ⊢
      exact h.1
    | true =>
      cases hex : env.pathExists (cfg.pretrained_model.getD "") with
      | true =>
        rw [main_eq_restore cfg env tds htds hp hex] at h
        rcases mainAfterLoad_mem cfg env _ _ h with hin | hadd
        · simp [trPrefix] at hin ⊢
          exact hin.1
        · simp at hadd
      | false =>
        by_cases hmem : cfg.pretrained_model.getD "" ∈ env.availableModelNames
        · rw [main_eq_fromPretrained cfg env tds htds hp hex hmem] at h
          rcases mainAfterLoad_mem cfg env _ _ h with hin | hadd
          · simp [trPrefix] at hin ⊢
            exact hin.1
          · simp at hadd
        · rw [main_eq_unknown cfg env tds htds hp hex hmem] at h
          simp [trPrefix] at h ⊢
          exact h.1

/-- C1, witness for the amended theorem at the concrete run `cfgValid`,
`envAll`. -/
theorem C1_witness :
    Event.mkTrainer 1 "16" "O1" ∈ (main cfgValid envAll).1 ∧
    (1 : Int) = if cfgValid.trainer.gpus ≠ 0 then 1 else 0 :=
  ⟨by decide, C1_gpus_clamped cfgValid envAll 1 "16" "O1" (by decide)⟩

/-- C2: when `cfg.model` has no `test_ds` attribute, `main` raises the
missing-`test_ds` error and its trace is empty, so in particular no
model-loading call (`restore_from` or `from_pretrained`) was made. -/
theorem C2_missing_test_ds (cfg : Config) (env : Env)
    (h : cfg.model.test_ds = none) :
    (main cfg env).2 = .error .missingTestDsFirst ∧
    ∀ e ∈ (main cfg env).1, isLoadEvent e = false := by
  rw [main_eq_noTestDs cfg env h]
  simp

/-- C2, witness at the configuration with `test_ds` removed. -/
theorem C2_witness :
    cfgNoTestDs.model.test_ds = none ∧
    ((main cfgNoTestDs envAll).2 = .error .missingTestDsFirst ∧
     ∀ e ∈ (main cfgNoTestDs envAll).1, isLoadEvent e = false) :=
  ⟨rfl, C2_missing_test_ds cfgNoTestDs envAll rfl⟩

/-- C3: with `test_ds` present and a falsy (absent or empty)
`pretrained_model`, `main` raises the error whose message instructs the user
to provide a pre-trained model or a .nemo file, and no model-loading call
occurs. -/
theorem C3_missing_pretrained (cfg : Config) (env : Env) (tds : TestDs)
    (htds : cfg.model.test_ds = some tds)
    (hp : pyTruthy cfg.pretrained_model = false) :
    (main cfg env).2 = .error .missingPretrainedModel ∧
    errMessage .missingPretrainedModel =
      "To run evaluation and inference script a pre-trained model or .nemo file must be provided." ++
      "For example: \"pretrained_model\"=\"NERModel\" or \"pretrained_model\"=\"my_ner_model.nemo\"" ∧
    ∀ e ∈ (main cfg env).1, isLoadEvent e = false := by
  rw [main_eq_noPretrained cfg env tds htds hp]
  exact ⟨rfl, rfl, by simp [trPrefix]⟩

/-- C3, witness at the configuration with `pretrained_model` absent. -/
theorem C3_witness :
    cfgNoPretrained.model.test_ds = some tdsA ∧
    pyTruthy cfgNoPretrained.pretrained_model = false ∧
    (main cfgNoPretrained envAll).2 = .error .missingPretrainedModel :=
  ⟨rfl, rfl,
   (C3_missing_pretrained cfgNoPretrained envAll tdsA rfl rfl).1⟩

/-- C4: a truthy `pretrained_model` that neither exists as a filesystem path
nor is among the available model names makes `main` raise the error listing
the available models, and no model-loading call occurs. -/
theorem C4_unknown_pretrained (cfg : Config) (env : Env) (tds : TestDs)
    (htds : cfg.model.test_ds = some tds)
    (hp : pyTruthy cfg.pretrained_model = true)
    (hex : env.pathExists (cfg.pretrained_model.getD "") = false)
    (hmem : cfg.pretrained_model.getD "" ∉ env.availableModelNames) :
    (main cfg env).2 = .error (.unknownPretrainedModel env.listAvailableModels) ∧
    errMessage (.unknownPretrainedModel env.listAvailableModels) =
      "Provide path to the pre-trained checkpoint or choose from " ++
        env.listAvailableModels ∧
    ∀ e ∈ (main cfg env).1, isLoadEvent e = false := by
  rw [main_eq_unknown cfg env tds htds hp hex hmem]
  exact ⟨rfl, rfl, by simp [trPrefix]⟩

/-- C4, witness at the valid configuration run against an environment with no
existing paths and a model-name list not containing `ner_model.nemo`. -/
theorem C4_witness :
    pyTruthy cfgUnknown.pretrained_model = true ∧
    envNone.pathExists (cfgUnknown.pretrained_model.getD "") = false ∧
    cfgUnknown.pretrained_model.getD "" ∉ envNone.availableModelNames ∧
    (main cfgUnknown envNone).2 =
      .error (.unknownPretrainedModel envNone.listAvailableModels) :=
  ⟨rfl, rfl, by decide,
   (C4_unknown_pretrained cfgUnknown envNone tdsA rfl rfl rfl (by decide)).1⟩

lemma afterLoad_bad_data_dir (cfg : Config) (env : Env) (tr : List Event)
    (h : pyTruthy cfg.model.dataset_data_dir = false ∨
         env.pathExists (cfg.model.dataset_data_dir.getD "") = false)
    (htr : ∀ e ∈ tr, isEvalEvent e = false) :
    (∃ err, (mainAfterLoad cfg env tr).2 = .error err) ∧
    ∀ e ∈ (mainAfterLoad cfg env tr).1, isEvalEvent e = false := by
  rcases h with h | h
  · rw [afterLoad_eq_noDataDir cfg env tr h]
    exact ⟨⟨_, rfl⟩, htr⟩
  · cases h1 : pyTruthy cfg.model.dataset_data_dir with
    | false =>
      rw [afterLoad_eq_noDataDir cfg env tr h1]
      exact ⟨⟨_, rfl⟩, htr⟩
    | true =>
      rw [afterLoad_eq_dirNotFound cfg env tr h1 h]
      exact ⟨⟨_, rfl⟩, htr⟩

/-- C5: whenever `model.dataset.data_dir` is absent/empty or names a
nonexistent path, `main` raises an error and no evaluation call
(`trainer.test` or `evaluate_from_file`) occurs, whatever the rest of the
configuration and environment. -/
theorem C5_bad_data_dir (cfg : Config) (env : Env)
    (h : pyTruthy cfg.model.dataset_data_dir = false ∨
         env.pathExists (cfg.model.dataset_data_dir.getD "") = false) :
    (∃ err, (main cfg env).2 = .error err) ∧
    ∀ e ∈ (main cfg env).1, isEvalEvent e = false := by
  rcases htds : cfg.model.test_ds with _ | tds
  · rw [main_eq_noTestDs cfg env htds]
    exact ⟨⟨_, rfl⟩, by simp⟩
  · cases hp : pyTruthy cfg.pretrained_model with
    | false =>
      rw [main_eq_noPretrained cfg env tds htds hp]
      exact ⟨⟨_, rfl⟩, by simp [trPrefix]⟩
    | true =>
      cases hex : env.pathExists (cfg.pretrained_model.getD "") with
      | true =>
        rw [main_eq_restore cfg env tds htds hp hex]
        exact afterLoad_bad_data_dir cfg env _ h (by simp [trPrefix])
      | false =>
        by_cases hmem : cfg.pretrained_model.getD "" ∈ env.availableModelNames
        · rw [main_eq_fromPretrained cfg env tds htds hp hex hmem]
          exact afterLoad_bad_data_dir cfg env _ h (by simp [trPrefix])
        · rw [main_eq_unknown cfg env tds htds hp hex hmem]
          exact ⟨⟨_, rfl⟩, by simp [trPrefix]⟩

/-- C5, witness at the configuration with `model.dataset.data_dir` absent. -/
theorem C5_witness :
    pyTruthy cfgNoDataDir.model.dataset_data_dir = false ∧
    ((∃ err, (main cfgNoDataDir envAll).2 = .error err) ∧
     ∀ e ∈ (main cfgNoDataDir envAll).1, isEvalEvent e = false) :=
  ⟨rfl, C5_bad_data_dir cfgNoDataDir envAll (Or.inl rfl)⟩

/-- C6: for a configuration with `test_ds` present, a resolvable truthy
`pretrained_model` and an existing `data_dir`, and a run whose evaluation
setup succeeds, `evaluate_from_file` is invoked with `text_file` and
`labels_file` equal to `data_dir` joined with the configured file names,
`output_dir` the experiment directory, and confusion-matrix generation
enabled. -/
theorem C6_evaluate_paths (cfg : Config) (env : Env) (tds : TestDs) (d : String)
    (htds : cfg.model.test_ds = some tds)
    (hd : cfg.model.dataset_data_dir = some d) (hdne : d ≠ "")
    (hdex : env.pathExists d = true)
    (hp : pyTruthy cfg.pretrained_model = true)
    (hres : env.pathExists (cfg.pretrained_model.getD "") = true ∨
            cfg.pretrained_model.getD "" ∈ env.availableModelNames)
    (hprep : env.prepareTest = true) :
    Event.evaluateFromFile { data_dir := some d, use_cache := false }
        (os_path_join d tds.text_file) (os_path_join d tds.labels_file)
        env.expDir true true ∈ (main cfg env).1 := by
  have h1 : pyTruthy cfg.model.dataset_data_dir = true := by
    rw [hd]; simp [pyTruthy, hdne]
  have hgd : cfg.model.dataset_data_dir.getD "" = d := by rw [hd]; rfl
  have h2 : env.pathExists (cfg.model.dataset_data_dir.getD "") = true := by
    rw [hgd]; exact hdex
  cases hex : env.pathExists (cfg.pretrained_model.getD "") with
  | true =>
    rw [main_eq_restore cfg env tds htds hp hex,
        afterLoad_eq_success cfg env _ tds htds h1 h2 hprep, hgd]
    simp
  | false =>
    have hmem : cfg.pretrained_model.getD "" ∈ env.availableModelNames := by
      rcases hres with hres | hres
      · rw [hex] at hres; exact Bool.noConfusion hres
      · exact hres
    rw [main_eq_fromPretrained cfg env tds htds hp hex hmem,
        afterLoad_eq_success cfg env _ tds htds h1 h2 hprep, hgd]
    simp

/-- C6, witness at the fully valid concrete run. -/
theorem C6_witness :
    cfgValid.model.test_ds = some tdsA ∧
    cfgValid.model.dataset_data_dir = some "/data" ∧
    envAll.prepareTest = true ∧
    Event.evaluateFromFile { data_dir := some "/data", use_cache := false }
        (os_path_join "/data" tdsA.text_file)
        (os_path_join "/data" tdsA.labels_file)
        envAll.expDir true true ∈ (main cfgValid envAll).1 :=
  ⟨rfl, rfl, rfl,
   C6_evaluate_paths cfgValid envAll tdsA "/data" rfl rfl (by decide)
     (by decide) (by decide) (Or.inl (by decide)) rfl⟩

lemma afterLoad_prep_false (cfg : Config) (env : Env) (tr : List Event)
    (h3 : env.prepareTest = false)
    (htr : ∀ e ∈ tr, isEvalOrInferEvent e = false)
    (hpc : Event.prepareTestCall ∉ tr) :
    (∀ e ∈ (mainAfterLoad cfg env tr).1, isEvalOrInferEvent e = false) ∧
    (∃ err, (mainAfterLoad cfg env tr).2 = .error err) ∧
    (Event.prepareTestCall ∈ (mainAfterLoad cfg env tr).1 →
      (mainAfterLoad cfg env tr).2 = .error .terminatingEvaluation) := by
  cases h1 : pyTruthy cfg.model.dataset_data_dir with
  | false =>
    rw [afterLoad_eq_noDataDir cfg env tr h1]
    exact ⟨htr, ⟨_, rfl⟩, fun hc => absurd hc hpc⟩
  | true =>
    cases h2 : env.pathExists (cfg.model.dataset_data_dir.getD "") with
    | false =>
      rw [afterLoad_eq_dirNotFound cfg env tr h1 h2]
      exact ⟨htr, ⟨_, rfl⟩, fun hc => absurd hc hpc⟩
    | true =>
      rcases htds : cfg.model.test_ds with _ | tds
      · rw [afterLoad_eq_noTestDs cfg env tr htds h1 h2]
        refine ⟨?_, ⟨_, rfl⟩, ?_⟩
        · intro e he
          rcases List.mem_append.mp he with he | he
          · exact htr e he
          · simp only [List.mem_cons, List.not_mem_nil, or_false] at he
            rcases he with rfl | rfl <;> rfl
        · intro hc
          rcases List.mem_append.mp hc with hc | hc
          · exact absurd hc hpc
          · simp at hc
      · rw [afterLoad_eq_terminating cfg env tr tds htds h1 h2 h3]
        refine ⟨?_, ⟨_, rfl⟩, fun _ => rfl⟩
        intro e he
        rcases List.mem_append.mp he with he | he
        · exact htr e he
        · simp only [List.mem_cons, List.not_mem_nil, or_false] at he
          rcases he with rfl | rfl | rfl <;> rfl

/-- C7: when `model.prepare_test(trainer)` returns a falsy value, the run is
fatally terminated with no retry or recovery: no evaluation or inference call
(`trainer.test`, `evaluate_from_file`, `add_predictions`) occurs in the
trace, `main` raises an error, and whenever execution actually reached the
`prepare_test` call the raised error is 'Terminating evaluation'. -/
theorem C7_prepare_test_fatal (cfg : Config) (env : Env)
    (h : env.prepareTest = false) :
    (∀ e ∈ (main cfg env).1, isEvalOrInferEvent e = false) ∧
    (∃ err, (main cfg env).2 = .error err) ∧
    (Event.prepareTestCall ∈ (main cfg env).1 →
      (main cfg env).2 = .error .terminatingEvaluation ∧
      errMessage .terminatingEvaluation = "Terminating evaluation") := by
  rcases htds : cfg.model.test_ds with _ | tds
  · rw [main_eq_noTestDs cfg env htds]
    exact ⟨by simp, ⟨_, rfl⟩, by simp⟩
  · cases hp : pyTruthy cfg.pretrained_model with
    | false =>
      rw [main_eq_noPretrained cfg env tds htds hp]
      refine ⟨by simp [trPrefix], ⟨_, rfl⟩, fun hc => ?_⟩
      exact absurd hc (by simp [trPrefix])
    | true =>
      cases hex : env.pathExists (cfg.pretrained_model.getD "") with
      | true =>
        rw [main_eq_restore cfg env tds htds hp hex]
        have hal := afterLoad_prep_false cfg env
          (trPrefix cfg ++ [.restoreFrom (cfg.pretrained_model.getD "")]) h
          (by simp [trPrefix]) (by simp [trPrefix])
        exact ⟨hal.1, hal.2.1, fun hc => ⟨hal.2.2 hc, rfl⟩⟩
      | false =>
        by_cases hmem : cfg.pretrained_model.getD "" ∈ env.availableModelNames
        · rw [main_eq_fromPretrained cfg env tds htds hp hex hmem]
          have hal := afterLoad_prep_false cfg env
            (trPrefix cfg ++ [.fromPretrained (cfg.pretrained_model.getD "")]) h
            (by simp [trPrefix]) (by simp [trPrefix])
          exact ⟨hal.1, hal.2.1, fun hc => ⟨hal.2.2 hc, rfl⟩⟩
        · rw [main_eq_unknown cfg env tds htds hp hex hmem]
          refine ⟨by simp [trPrefix], ⟨_, rfl⟩, fun hc => ?_⟩
          exact absurd hc (by simp [trPrefix])

/-- C7, witness at the valid configuration run in the environment whose
evaluation setup fails. -/
theorem C7_witness :
    envNoPrep.prepareTest = false ∧
    (main cfgValid envNoPrep).2 = .error .terminatingEvaluation :=
  ⟨rfl, ((C7_prepare_test_fatal cfgValid envNoPrep rfl).2.2 (by decide)).1⟩

/-- C8: a truthy `pretrained_model` that both exists as a filesystem path and
is among the available model names is loaded via `restore_from`: the path
check takes precedence, the trace contains the `restore_from` call and no
`from_pretrained` call at all. -/
theorem C8_path_precedence (cfg : Config) (env : Env) (tds : TestDs)
    (p : String) (htds : cfg.model.test_ds = some tds)
    (hpm : cfg.pretrained_model = some p) (hne : p ≠ "")
    (hex : env.pathExists p = true)
    (hmem : p ∈ env.availableModelNames) :
    Event.restoreFrom p ∈ (main cfg env).1 ∧
    ∀ q, Event.fromPretrained q ∉ (main cfg env).1 := by
  have hp : pyTruthy cfg.pretrained_model = true := by
    rw [hpm]; simp [pyTruthy, hne]
  have hgd : cfg.pretrained_model.getD "" = p := by rw [hpm]; rfl
  have hex2 : env.pathExists (cfg.pretrained_model.getD "") = true := by
    rw [hgd]; exact hex
  rw [main_eq_restore cfg env tds htds hp hex2, hgd]
  constructor
  · obtain ⟨s, hs⟩ :=
      mainAfterLoad_prefix cfg env (trPrefix cfg ++ [Event.restoreFrom p])
    rw [hs]
    simp
  · intro q hq
    rcases mainAfterLoad_mem cfg env _ _ hq with hin | hadd
    · simp [trPrefix] at hin
    · simp at hadd

/-- C8, witness: in the valid concrete run, `ner_model.nemo` both exists on
disk and is listed among the available model names, yet `restore_from` is
used and `from_pretrained` never is. -/
theorem C8_witness :
    envAll.pathExists "ner_model.nemo" = true ∧
    "ner_model.nemo" ∈ envAll.availableModelNames ∧
    (Event.restoreFrom "ner_model.nemo" ∈ (main cfgValid envAll).1 ∧
     ∀ q, Event.fromPretrained q ∉ (main cfgValid envAll).1) :=
  ⟨rfl, by decide,
   C8_path_precedence cfgValid envAll tdsA "ner_model.nemo" rfl rfl
     (by decide) rfl (by decide)⟩

lemma afterLoad_state_events (cfg : Config) (env : Env) (tr : List Event)
    (st : ModelState) (tf lf od : String) (cm ncm : Bool)
    (h : Event.trainerTest st ∈ (mainAfterLoad cfg env tr).1 ∨
         Event.evaluateFromFile st tf lf od cm ncm ∈ (mainAfterLoad cfg env tr).1)
    (htr1 : Event.trainerTest st ∉ tr)
    (htr2 : Event.evaluateFromFile st tf lf od cm ncm ∉ tr) :
    st.use_cache = false ∧ st.data_dir = cfg.model.dataset_data_dir := by
  cases h1 : pyTruthy cfg.model.dataset_data_dir with
  | false =>
    rw [afterLoad_eq_noDataDir cfg env tr h1] at h
    rcases h with h | h
    · exact absurd h htr1
    · exact absurd h htr2
  | true =>
    cases h2 : env.pathExists (cfg.model.dataset_data_dir.getD "") with
    | false =>
      rw [afterLoad_eq_dirNotFound cfg env tr h1 h2] at h
      rcases h with h | h
      · exact absurd h htr1
      · exact absurd h htr2
    | true =>
      have hsome := pyTruthy_eq_some _ h1
      rcases htds : cfg.model.test_ds with _ | tds
      · rw [afterLoad_eq_noTestDs cfg env tr htds h1 h2] at h
        rcases h with h | h
        · rcases List.mem_append.mp h with h | h
          · exact absurd h htr1
          · simp at h
        · rcases List.mem_append.mp h with h | h
          · exact absurd h htr2
          · simp at h
      · cases h3 : env.prepareTest with
        | false =>
          rw [afterLoad_eq_terminating cfg env tr tds htds h1 h2 h3] at h
          rcases h with h | h
          · rcases List.mem_append.mp h with h | h
            · exact absurd h htr1
            · simp at h
          · rcases List.mem_append.mp h with h | h
            · exact absurd h htr2
            · simp at h
        | true =>
          rw [afterLoad_eq_success cfg env tr tds htds h1 h2 h3] at h
          have hst : st =
              { data_dir := some (cfg.model.dataset_data_dir.getD ""),
                use_cache := false } := by
            rcases h with h | h
            · rcases List.mem_append.mp h with h | h
              · exact absurd h htr1
              · simp at h
                exact h
            · rcases List.mem_append.mp h with h | h
              · exact absurd h htr2
              · simp at h
                exact h.1
          rw [hst]
          exact ⟨rfl, hsome.symm⟩

/-- C9: every `trainer.test` call and every `evaluate_from_file` call in any
run observes the model's dataset configuration with `use_cache = false` and
`data_dir` equal to the configured `model.dataset.data_dir`, whatever dataset
configuration the restored checkpoint carried. -/
theorem C9_dataset_state (cfg : Config) (env : Env) (st : ModelState)
    (tf lf od : String) (cm ncm : Bool)
    (h : Event.trainerTest st ∈ (main cfg env).1 ∨
         Event.evaluateFromFile st tf lf od cm ncm ∈ (main cfg env).1) :
    st.use_cache = false ∧ st.data_dir = cfg.model.dataset_data_dir := by
  rcases htds : cfg.model.test_ds with _ | tds
  · rw [main_eq_noTestDs cfg env htds] at h
    simp at h
  · cases hp : pyTruthy cfg.pretrained_model with
    | false =>
      rw [main_eq_noPretrained cfg env tds htds hp] at h
      simp [trPrefix] at h
    | true =>
      cases hex : env.pathExists (cfg.pretrained_model.getD "") with
      | true =>
        rw [main_eq_restore cfg env tds htds hp hex] at h
        exact afterLoad_state_events cfg env _ st tf lf od cm ncm h
          (by simp [trPrefix]) (by simp [trPrefix])
      | false =>
        by_cases hmem : cfg.pretrained_model.getD "" ∈ env.availableModelNames
        · rw [main_eq_fromPretrained cfg env tds htds hp hex hmem] at h
          exact afterLoad_state_events cfg env _ st tf lf od cm ncm h
            (by simp [trPrefix]) (by simp [trPrefix])
        · rw [main_eq_unknown cfg env tds htds hp hex hmem] at h
          simp [trPrefix] at h

/-- C9, witness at the valid concrete run: the `trainer.test` call observes
`use_cache = false` and the configured data directory, even though the
restored checkpoint carried `use_cache = true` and another directory. -/
theorem C9_witness :
    Event.trainerTest { data_dir := some "/data", use_cache := false } ∈
      (main cfgValid envAll).1 ∧
    (({ data_dir := some "/data", use_cache := false } : ModelState).use_cache
        = false ∧
     ({ data_dir := some "/data", use_cache := false } : ModelState).data_dir
        = cfgValid.model.dataset_data_dir) :=
  ⟨by decide,
   C9_dataset_state cfgValid envAll
     { data_dir := some "/data", use_cache := false } "" "" "" true true
     (Or.inl (by decide))⟩

lemma afterLoad_ne_secondCheck (cfg : Config) (env : Env) (tr : List Event)
    (tds : TestDs) (htds : cfg.model.test_ds = some tds) :
    (mainAfterLoad cfg env tr).2 ≠ .error .missingTestDsSecond := by
  cases h1 : pyTruthy cfg.model.dataset_data_dir with
  | false => rw [afterLoad_eq_noDataDir cfg env tr h1]; simp
  | true =>
    cases h2 : env.pathExists (cfg.model.dataset_data_dir.getD "") with
    | false => rw [afterLoad_eq_dirNotFound cfg env tr h1 h2]; simp
    | true =>
      cases h3 : env.prepareTest with
      | false => rw [afterLoad_eq_terminating cfg env tr tds htds h1 h2 h3]; simp
      | true => rw [afterLoad_eq_success cfg env tr tds htds h1 h2 h3]; simp

/-- C10: the second missing-`test_ds` check is dead in its error branch: no
run of `main`, over any configuration and environment, ever produces the
second check's error, because every execution reaching it already passed the
identical first check. -/
theorem C10_second_check_never_fires (cfg : Config) (env : Env) :
    (main cfg env).2 ≠ .error .missingTestDsSecond := by
  rcases htds : cfg.model.test_ds with _ | tds
  · rw [main_eq_noTestDs cfg env htds]; simp
  · cases hp : pyTruthy cfg.pretrained_model with
    | false => rw [main_eq_noPretrained cfg env tds htds hp]; simp
    | true =>
      cases hex : env.pathExists (cfg.pretrained_model.getD "") with
      | true =>
        rw [main_eq_restore cfg env tds htds hp hex]
        exact afterLoad_ne_secondCheck cfg env _ tds htds
      | false =>
        by_cases hmem : cfg.pretrained_model.getD "" ∈ env.availableModelNames
        · rw [main_eq_fromPretrained cfg env tds htds hp hex hmem]
          exact afterLoad_ne_secondCheck cfg env _ tds htds
        · rw [main_eq_unknown cfg env tds htds hp hex hmem]; simp

end TokenClassificationEvaluate
